import Mathlib

/-!
Verification of the conversation state machine and preference pipeline of the
google-map-app backend (FastAPI + Vertex AI + Google Places).

The definitions below are a shallow embedding of:
  backend/app/models/conversation.py   (data model, ConversationState enum)
  backend/app/services/session_store.py
  backend/app/services/conversation_manager.py
  backend/app/services/vertex_ai.py    (extract_preferences_from_freeform)
  backend/app/routes/chat.py           (_generate_response branches,
                                        _extract_and_enrich_places)

External collaborators (the Vertex AI generation call and the Google Places
lookups) are modelled as explicit environments: a turn is a pure function of
the session data and the collaborator outcomes.  Python exceptions are
modelled with Except; Python string operations (strip, lower, substring
membership, the concrete regular expressions used by the source) are
implemented over lists of characters.
-/

namespace GMapApp

/-! ## Python string primitives -/

/-- Python whitespace as used by str.strip and the regex class backslash-s
(ASCII portion; the source never feeds other Unicode whitespace to these). -/
def isPySpace (c : Char) : Bool :=
  c = ' ' || c = '\t' || c = '\n' || c = '\r' || c = '\x0b' || c = '\x0c'

/-- Python str.strip(): remove leading and trailing whitespace. -/
def stripChars (cs : List Char) : List Char :=
  ((cs.dropWhile isPySpace).reverse.dropWhile isPySpace).reverse

/-- Python str.lower() (ASCII case folding; the tokens the source lowercases
are ASCII words and Japanese text, which Char.toLower leaves unchanged). -/
def lowerChars (cs : List Char) : List Char :=
  cs.map Char.toLower

/-- Python substring membership: needle occurs contiguously in haystack. -/
def containsSub (needle : List Char) : List Char → Bool
  | [] => needle.isEmpty
  | c :: rest => needle.isPrefixOf (c :: rest) || containsSub needle rest

/-- String-level wrapper for the Python operator needle in haystack. -/
def strContains (needle haystack : String) : Bool :=
  containsSub needle.toList haystack.toList

/-- String-level wrapper for str.strip(). -/
def strStrip (s : String) : String :=
  String.mk (stripChars s.toList)

/-- String-level wrapper for str.lower(). -/
def strLower (s : String) : String :=
  String.mk (lowerChars s.toList)

/-- Python truthiness of an optional string (None and the empty string are
falsy). -/
def strTruthy : Option String → Bool
  | none => false
  | some s => !s.isEmpty

/-! ## Data model (backend/app/models/conversation.py) -/

/-- ConversationState from models/conversation.py.  Note that the enum has
exactly these six members: the FREE_INPUT state that routes/chat.py
references does not exist in the enum (see the C1 theorems). -/
inductive ConversationState
  | INITIAL
  | GATHERING_PREFERENCES
  | GENERATING_PLAN
  | PRESENTING_PLAN
  | REFINING
  | COMPLETED
deriving DecidableEq, Repr

/-- Python attribute access ConversationState.NAME on the enum class:
some member when NAME is defined, none (an AttributeError at runtime)
otherwise. -/
def conversationStateMember : String → Option ConversationState
  | "INITIAL" => some .INITIAL
  | "GATHERING_PREFERENCES" => some .GATHERING_PREFERENCES
  | "GENERATING_PLAN" => some .GENERATING_PLAN
  | "PRESENTING_PLAN" => some .PRESENTING_PLAN
  | "REFINING" => some .REFINING
  | "COMPLETED" => some .COMPLETED
  | _ => none

/-- Location model: free-text address plus optional coordinates. -/
structure Location where
  address : String := ""
  lat : Option Rat := none
  lng : Option Rat := none
deriving DecidableEq, Repr

/-- TravelTime model (value in minutes). -/
structure TravelTime where
  value : Int
  unit : String := "minutes"
  direction : String := "one-way"
deriving DecidableEq, Repr

/-- UserPreferences model. -/
structure UserPreferences where
  location : Location := {}
  travel_time : Option TravelTime := none
  activity_type : Option String := none
  meals : List String := []
  child_age : Option String := none
  transportation : Option String := none
  special_requirements : List String := []
  shown_place_ids : List String := []
  spots_request_count : Nat := 0
deriving DecidableEq, Repr

/-- A message of the conversation history (timestamps as abstract ticks). -/
structure ChatMessage where
  role : String
  content : String
  timestamp : Nat := 0
deriving DecidableEq, Repr

/-- ConversationSession model.  The generated_plan dict is carried opaquely. -/
structure ConversationSession where
  session_id : String
  state : ConversationState := .INITIAL
  user_preferences : UserPreferences := {}
  conversation_history : List ChatMessage := []
  generated_plan : Option String := none
  created_at : Nat := 0
  last_updated : Nat := 0
deriving DecidableEq, Repr

/-! ## Dynamic preference updates (conversation_manager.update_preferences)

The Python method receives keyword arguments of heterogeneous types and
assigns them with setattr after a hasattr check.  Values are modelled by a
sum over the field types actually used by the callers (each caller passes a
value of the target field's type). -/

/-- One keyword-argument value for update_preferences. -/
inductive PrefValue
  | locVal (v : Location)
  | timeVal (v : TravelTime)
  | strVal (v : String)
  | strListVal (v : List String)
  | natVal (v : Nat)
deriving DecidableEq, Repr

/-- hasattr(session.user_preferences, key): the attribute names of
UserPreferences. -/
def userPrefsHasAttr (key : String) : Bool :=
  key = "location" || key = "travel_time" || key = "activity_type" ||
  key = "meals" || key = "child_age" || key = "transportation" ||
  key = "special_requirements" || key = "shown_place_ids" ||
  key = "spots_request_count"

/-- setattr(session.user_preferences, key, value) for a key naming an
attribute; keys that are not attributes leave the record unchanged (the
hasattr guard in the source).  Callers always pass a value of the field's
type, which is what the sum type encodes. -/
def setPrefAttr (p : UserPreferences) (key : String) (v : PrefValue) : UserPreferences :=
  if key = "location" then
    match v with | .locVal l => { p with location := l } | _ => p
  else if key = "travel_time" then
    match v with | .timeVal t => { p with travel_time := some t } | _ => p
  else if key = "activity_type" then
    match v with | .strVal s => { p with activity_type := some s } | _ => p
  else if key = "meals" then
    match v with | .strListVal m => { p with meals := m } | _ => p
  else if key = "child_age" then
    match v with | .strVal s => { p with child_age := some s } | _ => p
  else if key = "transportation" then
    match v with | .strVal s => { p with transportation := some s } | _ => p
  else if key = "special_requirements" then
    match v with | .strListVal m => { p with special_requirements := m } | _ => p
  else if key = "shown_place_ids" then
    match v with | .strListVal m => { p with shown_place_ids := m } | _ => p
  else if key = "spots_request_count" then
    match v with | .natVal n => { p with spots_request_count := n } | _ => p
  else p

/-- The update loop of conversation_manager.update_preferences: for each
keyword argument, assign it when hasattr holds, silently skip it otherwise. -/
def updatePrefsKwargs (p : UserPreferences) (kwargs : List (String × PrefValue)) : UserPreferences :=
  kwargs.foldl (fun acc kv => if userPrefsHasAttr kv.1 then setPrefAttr acc kv.1 kv.2 else acc) p

/-! ## Session store (backend/app/services/session_store.py) -/

/-- The in-memory dict of sessions, keyed by session id. -/
def SessionStore := List (String × ConversationSession)

/-- SessionStore.get_session. -/
def getSession (store : SessionStore) (sid : String) : Option ConversationSession :=
  match store with
  | [] => none
  | (k, s) :: rest => if k = sid then some s else getSession rest sid

/-- Dict assignment store[sid] = sess (replace in place, else append). -/
def storeSet (store : SessionStore) (sid : String) (sess : ConversationSession) : SessionStore :=
  match store with
  | [] => [(sid, sess)]
  | (k, s) :: rest => if k = sid then (k, sess) :: rest else (k, s) :: storeSet rest sid sess

/-- SessionStore.update_session: bump last_updated to the current time and
store the record. -/
def updateSession (store : SessionStore) (sess : ConversationSession) (now : Nat) : SessionStore :=
  storeSet store sess.session_id { sess with last_updated := now }

/-- conversation_manager.update_preferences: look the session up, apply the
keyword arguments (unknown keys silently skipped), save through
update_session.  Returns the new store and the session the method returns
(none when the id is unknown). -/
def update_preferences (store : SessionStore) (sid : String)
    (kwargs : List (String × PrefValue)) (now : Nat) :
    SessionStore × Option ConversationSession :=
  match getSession store sid with
  | none => (store, none)
  | some sess =>
    let sess' := { sess with user_preferences := updatePrefsKwargs sess.user_preferences kwargs }
    (updateSession store sess' now, some { sess' with last_updated := now })

/-! ## Sufficiency policy (backend/app/services/conversation_manager.py)

The Python methods take the session and read session.user_preferences; they
are embedded over the preference set directly. -/

/-- conversation_manager.has_sufficient_preferences: location address truthy
and (activity_type truthy or travel_time is not None). -/
def has_sufficient_preferences (p : UserPreferences) : Bool :=
  let has_location := !p.location.address.isEmpty
  let has_intent := strTruthy p.activity_type || p.travel_time.isSome
  has_location && has_intent

/-- The family/child marker tokens of get_critical_missing_info. -/
def familyMarkerWords : List String := ["子", "child", "kid", "family", "家族"]

/-- conversation_manager.get_critical_missing_info: location first when the
address is falsy; child_age appended when child_age is falsy while
activity_type is truthy and its lowercased text contains a family/child
marker token. -/
def get_critical_missing_info (p : UserPreferences) : List String :=
  let missing := if !(strTruthy (some p.location.address)) then ["location"] else []
  let childNeeded :=
    !(strTruthy p.child_age) &&
      (strTruthy p.activity_type &&
        familyMarkerWords.any (fun w =>
          containsSub w.toList (lowerChars ((p.activity_type.getD "").toList))))
  missing ++ (if childNeeded then ["child_age"] else [])

/-! ## Deterministic keyword extractor (routes/chat.py, FREE_INPUT branch)

The branch first tries plain keyword matching on the utterance before any AI
call: transportation keywords, a child-age pattern and a travel-time pattern,
each implemented with a concrete regular expression that is modelled below by
an equivalent backtracking-faithful scanner. -/

/-- Digit-string to integer, as Python int() on the matched digits. -/
def digitsToNat (ds : List Char) : Nat :=
  ds.foldl (fun acc c => acc * 10 + (c.toNat - '0'.toNat)) 0

/-- Match of the age pattern digits, optional hyphen-digits, then 歳 or 才,
anchored at the head of the list; returns the captured digit or digit-range
string.  Mirrors the regex backtracking: when the optional hyphen group
matches but no age unit follows, dropping the group cannot succeed either
because the next character is the hyphen. -/
def matchAgeAt (cs : List Char) : Option (List Char) :=
  let ds := cs.takeWhile Char.isDigit
  let r1 := cs.dropWhile Char.isDigit
  if ds.isEmpty then none
  else
    match r1 with
    | '-' :: r2 =>
      let ds2 := r2.takeWhile Char.isDigit
      let r3 := r2.dropWhile Char.isDigit
      if ds2.isEmpty then none
      else
        match r3 with
        | c :: _ => if c = '歳' || c = '才' then some (ds ++ '-' :: ds2) else none
        | [] => none
    | c :: _ => if c = '歳' || c = '才' then some ds else none
    | [] => none

/-- re.search for the age pattern: leftmost match wins. -/
def searchAge : List Char → Option (List Char)
  | [] => none
  | c :: rest =>
    match matchAgeAt (c :: rest) with
    | some cap => some cap
    | none => searchAge rest

/-- Match of digits, optional whitespace, then a fixed marker (分 or 時間),
anchored at the head of the list; returns the captured digits. -/
def matchNumMarkerAt (marker : List Char) (cs : List Char) : Option (List Char) :=
  let ds := cs.takeWhile Char.isDigit
  let r1 := cs.dropWhile Char.isDigit
  if ds.isEmpty then none
  else if marker.isPrefixOf (r1.dropWhile isPySpace) then some ds
  else none

/-- re.search for the digits-then-marker pattern: leftmost match wins. -/
def searchNumMarker (marker : List Char) : List Char → Option (List Char)
  | [] => none
  | c :: rest =>
    match matchNumMarkerAt marker (c :: rest) with
    | some cap => some cap
    | none => searchNumMarker marker rest

/-- Transportation keyword matching of the FREE_INPUT branch.  When the
message contains 車 (or car), it is taken as a car mention and set to car
only when an affirmative marker (ある, あり, 使える) occurs or the stripped
message is exactly 車; otherwise nothing is set and, because of the elif,
the public-transit alternatives are not even examined.  Only a message
without any car substring can reach the public-transit branch. -/
def keywordTransportation (msg : String) : Option String :=
  if strContains "車" msg || strContains "car" (strLower msg) then
    if strContains "ある" msg || strContains "あり" msg || strContains "使える" msg
        || strStrip msg = "車" then
      some "car"
    else none
  else if strContains "電車" msg || strContains "公共交通" msg || strContains "バス" msg
      || strContains "電車・バス" msg then
    some "public"
  else none

/-- Result of the keyword-matching phase: the updated preferences and the
keyword_matched flag. -/
structure KeywordStepResult where
  prefs : UserPreferences
  matched : Bool
deriving DecidableEq, Repr

/-- The keyword-matching phase of the FREE_INPUT branch: transportation,
child age, then travel time (minutes first, hours only otherwise), each
updating the session preferences through update_preferences. -/
def freeInputKeywordStep (p0 : UserPreferences) (msg : String) : KeywordStepResult :=
  let tr := keywordTransportation msg
  let p1 := match tr with
    | some t => updatePrefsKwargs p0 [("transportation", PrefValue.strVal t)]
    | none => p0
  let ageCap :=
    if strContains "歳" msg || strContains "才" msg then searchAge msg.toList else none
  let p2 := match ageCap with
    | some ds => updatePrefsKwargs p1 [("child_age", PrefValue.strVal (String.mk ds))]
    | none => p1
  let timeVal :=
    if strContains "分" msg && msg.toList.any Char.isDigit then
      (searchNumMarker ['分'] msg.toList).map (fun ds => digitsToNat ds)
    else if strContains "時間" msg && msg.toList.any Char.isDigit then
      (searchNumMarker ['時', '間'] msg.toList).map (fun ds => digitsToNat ds * 60)
    else none
  let p3 := match timeVal with
    | some v =>
      updatePrefsKwargs p2 [("travel_time", PrefValue.timeVal ⟨(v : Int), "minutes", "one-way"⟩)]
    | none => p2
  ⟨p3, tr.isSome || ageCap.isSome || timeVal.isSome⟩

/-! ## Plan-text parsing (routes/chat.py header pattern)

The generated plan text is parsed with the pattern three hash marks,
whitespace, digits, a dot, whitespace, up to two asterisks, a captured run of
characters other than newline and asterisk, then up to two asterisks.  The
scanner below implements that regex at a position, and the findall/split
drivers scan left to right, restarting after each match. -/

/-- A character admissible in the captured facility-name run (anything but a
newline or an asterisk). -/
def headerBodyChar (c : Char) : Bool :=
  !(c = '\n') && !(c = '*')

/-- Greedy match of up to two asterisks. -/
def dropUpTo2Stars : List Char → List Char
  | '*' :: '*' :: r => r
  | '*' :: r => r
  | r => r

/-- Match of the full header pattern anchored at the head of the list;
returns the captured name and the remainder after the whole match.  Greedy
submatches need no backtracking here: shrinking the digit run or the
asterisk options can never make a failing continuation succeed. -/
def matchHeaderAt : List Char → Option (List Char × List Char)
  | '#' :: '#' :: '#' :: rest =>
    let r1 := rest.dropWhile isPySpace
    let ds := r1.takeWhile Char.isDigit
    let r2 := r1.dropWhile Char.isDigit
    if ds.isEmpty then none
    else
      match r2 with
      | '.' :: r3 =>
        let r5 := dropUpTo2Stars (r3.dropWhile isPySpace)
        let cap := r5.takeWhile headerBodyChar
        let r6 := r5.dropWhile headerBodyChar
        if cap.isEmpty then none else some (cap, dropUpTo2Stars r6)
      | _ => none
  | _ => none

/-- Characters before the start of the next header match (the text piece a
split places between two matches; the whole rest when no match remains). -/
def preOfNextHeader : List Char → List Char
  | [] => []
  | c :: rest =>
    if (matchHeaderAt (c :: rest)).isSome then []
    else c :: preOfNextHeader rest

/-- Left-to-right non-overlapping scan for header matches; each element is
(capture, full match span, following text up to the next match).  The fuel
argument only bounds the recursion: a successful match always consumes at
least the five characters of hash marks, digit and dot, so one unit of fuel
per character is enough. -/
def headerSectionsAux : Nat → List Char → List (List Char × List Char × List Char)
  | 0, _ => []
  | _ + 1, [] => []
  | fuel + 1, c :: rest =>
    let cs := c :: rest
    match matchHeaderAt cs with
    | some (cap, rem) =>
      (cap, cs.take (cs.length - rem.length), preOfNextHeader rem) :: headerSectionsAux fuel rem
    | none => headerSectionsAux fuel rest

/-- All header matches of a plan text, in scan order. -/
def headerSections (cs : List Char) : List (List Char × List Char × List Char) :=
  headerSectionsAux (cs.length + 1) cs

/-- re.findall of the header pattern: the list of captured facility names. -/
def headerCaptures (cs : List Char) : List (List Char) :=
  (headerSections cs).map (·.1)

/-- Lookup in an association list built by repeated dict assignment: the
last binding for the key wins, as in a Python dict. -/
def dictGet (d : List (String × String)) (k : String) : Option String :=
  (d.filter (fun kv => kv.1 = k)).getLast?.map (·.2)

/-- The _extract_place_descriptions route helper: for every header match of
the plan text, map the stripped captured name to the stripped concatenation
of the match span and the text that follows it up to the next match.  (The
source re-runs the header regex on the isolated match span to re-extract the
name; on a span that is itself a full match this reproduces the original
capture.) -/
def extractPlaceDescriptions (planText : String) : List (String × String) :=
  (headerSections planText.toList).map fun sec =>
    (String.mk (stripChars sec.1), String.mk (stripChars (sec.2.1 ++ sec.2.2)))

/-! ## Place enrichment (routes/chat.py _extract_and_enrich_places)

The Google Places collaborator is an explicit environment: a text search
returning an optional place id (the only summary field the route reads) or
raising, and a details lookup returning the detail record or raising. -/

/-- One review entry as rebuilt by the route (author, rating, text, time,
relative time). -/
structure PlaceReview where
  author_name : Option String := none
  rating : Option Int := none
  text : Option String := none
  time : Option Int := none
  relative_time_description : Option String := none
deriving DecidableEq, Repr

/-- The place-details record for the requested field set. -/
structure PlaceDetails where
  name : Option String := none
  formatted_address : Option String := none
  geometry_location : Option (Rat × Rat) := none
  rating : Option Rat := none
  user_ratings_total : Option Nat := none
  photos : List (Option String) := []
  opening_hours : Option String := none
  website : Option String := none
  formatted_phone_number : Option String := none
  types : List String := []
  reviews : List PlaceReview := []
deriving DecidableEq, Repr

/-- The Google Places collaborator: both operations may raise (the error
text models str of the exception). -/
structure PlacesEnv where
  find_place_by_text : String → Option (Rat × Rat) → Except String (Option String)
  get_place_details : String → Except String PlaceDetails
  apiKey : String

/-- The enriched place record assembled by the route. -/
structure EnrichedPlace where
  id : String
  place_id : String
  name : String
  formatted_address : Option String
  location : Option (Rat × Rat)
  rating : Option Rat
  user_ratings_total : Option Nat
  photo_url : Option String
  opening_hours : Option String
  website : Option String
  phone : Option String
  types : List String
  reviews : Option (List PlaceReview)
  llm_description : Option String
deriving DecidableEq, Repr

/-- Enrichment of one facility name: none when the text search raises, finds
no candidate, or the details lookup raises (the loop's per-facility try with
continue); otherwise the assembled record. -/
def enrichOne (env : PlacesEnv) (locationBias : Option (Rat × Rat))
    (descriptions : List (String × String)) (facilityName : String) : Option EnrichedPlace :=
  match env.find_place_by_text facilityName locationBias with
  | .error _ => none
  | .ok none => none
  | .ok (some placeId) =>
    match env.get_place_details placeId with
    | .error _ => none
    | .ok details =>
      let photo_url :=
        match details.photos with
        | [] => none
        | ref :: _ =>
          match ref with
          | some r =>
            if r.isEmpty then none
            else some ("https://maps.googleapis.com/maps/api/place/photo?maxwidth=400&photo_reference="
              ++ r ++ "&key=" ++ env.apiKey)
          | none => none
      let reviews5 := details.reviews.take 5
      some
        { id := placeId
          place_id := placeId
          name := details.name.getD facilityName
          formatted_address := details.formatted_address
          location := details.geometry_location
          rating := details.rating
          user_ratings_total := details.user_ratings_total
          photo_url := photo_url
          opening_hours := details.opening_hours
          website := details.website
          phone := details.formatted_phone_number
          types := details.types
          reviews := if reviews5.isEmpty then none else some reviews5
          llm_description := dictGet descriptions facilityName }

/-- The enrichment loop over the matched facility names: strip each name,
skip empty names, skip facilities whose enrichment fails, keep the rest in
order. -/
def processFacilities (env : PlacesEnv) (bias : Option (Rat × Rat))
    (descriptions : List (String × String)) : List String → List EnrichedPlace
  | [] => []
  | nameRaw :: rest =>
    let facilityName := strStrip nameRaw
    if facilityName.isEmpty then processFacilities env bias descriptions rest
    else
      match enrichOne env bias descriptions facilityName with
      | some ep => ep :: processFacilities env bias descriptions rest
      | none => processFacilities env bias descriptions rest

/-- The _extract_and_enrich_places route helper: extract the descriptions,
find all facility names with the header pattern, enrich each. -/
def extract_and_enrich_places (env : PlacesEnv) (planText : String)
    (bias : Option (Rat × Rat)) : List EnrichedPlace :=
  let descriptions := extractPlaceDescriptions planText
  let matched := (headerCaptures planText.toList).map String.mk
  processFacilities env bias descriptions matched

/-! ## The dialogue state machine (routes/chat.py _generate_response)

One turn of the handler is a pure function of the session preferences, the
utterance and the collaborator outcomes.  Python exceptions that escape the
handler are Except errors; the transition targets are looked up on the
ConversationState enum by name, exactly as the attribute accesses in the
source, so a reference to the missing FREE_INPUT member turns into an
AttributeError. -/

/-- A Python exception escaping the turn handler. -/
inductive PyErr
  | attributeError
deriving DecidableEq, Repr

/-- The outcome of one handler branch: a reply (text, optional quick replies,
optional enriched places), or a committed transition followed by the
re-entrant call of the handler on the same utterance. -/
inductive TurnOutcome
  | reply (text : String) (quick : Option (List String)) (places : Option (List EnrichedPlace))
  | reprocess (st : ConversationState)
deriving DecidableEq, Repr

/-- Result of one handler branch: final preferences, final session state,
outcome, and whether the plan-generation collaborator was invoked. -/
structure StepResult where
  prefs : UserPreferences
  state : ConversationState
  outcome : TurnOutcome
  invokedGeneration : Bool
deriving DecidableEq, Repr

/-- Fallback coordinates of the Tokyo-station default. -/
def tokyoLat : Rat := 356812 / 10000

/-- Fallback longitude of the Tokyo-station default. -/
def tokyoLng : Rat := 1397671 / 10000

/-- The _convert_location_to_dict route helper on a Location value: default
address and coordinates substitute for absent ones.  (The source tests
falsiness; a stored coordinate exactly 0.0, which no caller produces, is not
distinguished from an absent one here.) -/
def convertLocationToDict (loc : Location) : String × Rat × Rat :=
  (if loc.address.isEmpty then "東京駅" else loc.address,
   loc.lat.getD tokyoLat, loc.lng.getD tokyoLng)

/-- Suffix of the user-facing failure message, selected by searching the
lowercased error text for the timeout, quota, network and authentication
markers, with a generic fallback. -/
def planErrorSuffix (errText : String) : String :=
  let es := strLower errText
  if strContains "timeout" es || strContains "timed out" es then
    "処理に時間がかかりすぎています。もう一度お試しください。"
  else if strContains "quota" es || strContains "rate limit" es then
    "一時的にアクセスが集中しています。しばらく待ってからお試しください。"
  else if strContains "network" es || strContains "connection" es then
    "ネットワーク接続に問題があります。インターネット接続を確認してください。"
  else if strContains "authentication" es || strContains "credentials" es then
    "サービスの設定に問題があります。管理者にお問い合わせください。"
  else
    "もう一度お試しいただくか、条件を変更してみてください。"

/-- The full classified failure message of the plan-generation branches. -/
def planErrorMessage (errText : String) : String :=
  "申し訳ございませんが、プランの作成中に問題が発生しました。" ++ planErrorSuffix errText

/-- The five canned failure messages the classification can produce. -/
def planErrorMessages : List String :=
  ["申し訳ございませんが、プランの作成中に問題が発生しました。処理に時間がかかりすぎています。もう一度お試しください。",
   "申し訳ございませんが、プランの作成中に問題が発生しました。一時的にアクセスが集中しています。しばらく待ってからお試しください。",
   "申し訳ございませんが、プランの作成中に問題が発生しました。ネットワーク接続に問題があります。インターネット接続を確認してください。",
   "申し訳ございませんが、プランの作成中に問題が発生しました。サービスの設定に問題があります。管理者にお問い合わせください。",
   "申し訳ございませんが、プランの作成中に問題が発生しました。もう一度お試しいただくか、条件を変更してみてください。"]

/-- The GENERATING_PLAN branch: defensive location check (whose revert
targets the missing FREE_INPUT member), activity-type defaulting, the
generation call, enrichment, storing the fresh place ids, and the transition
to PRESENTING_PLAN.  The gen argument is the outcome of the generation
collaborator on this turn's prompt. -/
def handleGeneratingPlan (p0 : UserPreferences) (placesEnv : PlacesEnv)
    (gen : Except String String) : Except PyErr StepResult :=
  if p0.location.address.isEmpty then
    match conversationStateMember "FREE_INPUT" with
    | none => .error .attributeError
    | some st => .ok ⟨p0, st, .reply "出発地を教えてください。" (some []) none, false⟩
  else
    let p1 := if strTruthy p0.activity_type then p0
      else updatePrefsKwargs p0 [("activity_type", PrefValue.strVal "家族向け")]
    let bias := ((convertLocationToDict p1.location).2.1, (convertLocationToDict p1.location).2.2)
    match gen with
    | .error e =>
      .ok ⟨p1, .GENERATING_PLAN, .reply (planErrorMessage e) none none, true⟩
    | .ok planText =>
      let enriched := extract_and_enrich_places placesEnv planText (some bias)
      let placeIds := enriched.map (·.place_id)
      let p2 := updatePrefsKwargs p1 [("shown_place_ids", PrefValue.strListVal placeIds)]
      match conversationStateMember "PRESENTING_PLAN" with
      | none => .error .attributeError
      | some st =>
        let quick := if p2.spots_request_count < 2 then some ["他の候補を見る"] else none
        .ok ⟨p2, st, .reply planText quick (some enriched), true⟩

/-- Defensive prerequisite check of the PRESENTING_PLAN branch.  The meals
disjunct of the source compares a plain list field against None and is
therefore constant false on the pydantic model; it is dropped here. -/
def presentingPrereqsMissing (p : UserPreferences) : Bool :=
  !(strTruthy p.activity_type) || !(strTruthy p.child_age) ||
  !(p.travel_time.isSome) || !(strTruthy p.transportation)

/-- The show-more trigger phrases. -/
def isShowMoreRequest (msg : String) : Bool :=
  strContains "別のプラン" msg || strContains "他の提案" msg || strContains "他の候補" msg

/-- The fixed refusal once the additional-request cap is reached. -/
def showMoreRefusal : String :=
  "申し訳ございませんが、これ以上の候補はご用意できません。表示されているスポットからお選びください。"

/-- The fixed apology of the show-more except branch (not classified by the
error text). -/
def showMoreApology : String :=
  "申し訳ございません。追加のスポット生成中に問題が発生しました。もう一度お試しください。"

/-- The default PRESENTING_PLAN reply for non-trigger messages. -/
def presentingDefault : String :=
  "プランについてのご質問やご要望があればお聞かせください。"

/-- The PRESENTING_PLAN branch: defensive fallback to GATHERING_PREFERENCES,
the capped show-more cycle (generation with the exclusion list and a higher
temperature, both carried by the collaborator environment), and the default
reply.  The gen argument is the outcome of the generation collaborator when
this turn invokes it. -/
def handlePresentingPlan (p0 : UserPreferences) (msg : String) (placesEnv : PlacesEnv)
    (gen : Except String String) : Except PyErr StepResult :=
  if presentingPrereqsMissing p0 then
    match conversationStateMember "GATHERING_PREFERENCES" with
    | none => .error .attributeError
    | some st => .ok ⟨p0, st, .reprocess st, false⟩
  else if isShowMoreRequest msg then
    if p0.spots_request_count ≥ 2 then
      .ok ⟨p0, .PRESENTING_PLAN, .reply showMoreRefusal none none, false⟩
    else
      let bias := ((convertLocationToDict p0.location).2.1, (convertLocationToDict p0.location).2.2)
      match gen with
      | .error _ =>
        .ok ⟨p0, .PRESENTING_PLAN, .reply showMoreApology none none, true⟩
      | .ok planText =>
        let enriched := extract_and_enrich_places placesEnv planText (some bias)
        let newIds := enriched.map (·.place_id)
        let updatedIds := p0.shown_place_ids ++ newIds
        let p1 := updatePrefsKwargs p0
          [("shown_place_ids", PrefValue.strListVal updatedIds),
           ("spots_request_count", PrefValue.natVal (p0.spots_request_count + 1))]
        let quick := if p1.spots_request_count < 2 then some ["他の候補を見る"] else none
        .ok ⟨p1, .PRESENTING_PLAN, .reply planText quick (some enriched), true⟩
  else
    .ok ⟨p0, .PRESENTING_PLAN, .reply presentingDefault none none, false⟩

/-- Whether a collaborator outcome is a success. -/
def exceptIsOk : Except String String → Bool
  | .ok _ => true
  | .error _ => false

/-- A session-long sequence of PRESENTING_PLAN turns with one collaborator
outcome per turn; returns the final preferences, the number of turns that
invoked the generation collaborator, and the number of those invocations
that succeeded.  (A handler-level exception, impossible for the existing
transition targets of this branch, ends the trace.) -/
def runShowMoreTurns (placesEnv : PlacesEnv) (msg : String) (p : UserPreferences) :
    List (Except String String) → UserPreferences × Nat × Nat
  | [] => (p, 0, 0)
  | gen :: rest =>
    match handlePresentingPlan p msg placesEnv gen with
    | .error _ => (p, 0, 0)
    | .ok r =>
      let t := runShowMoreTurns placesEnv msg r.prefs rest
      (t.1,
       (if r.invokedGeneration then 1 else 0) + t.2.1,
       (if r.invokedGeneration && exceptIsOk gen then 1 else 0) + t.2.2)

/-! ## The INITIAL branch (routes/chat.py lines 282-416)

The coordinate-button pattern result and the free-form extraction outcome
are the branch's inputs; the extraction value mirrors the dict fields the
branch reads. -/

/-- The location part of an extraction result. -/
structure ExtractedLocation where
  address : Option String := none
  explicit : Bool := false
deriving DecidableEq, Repr

/-- The travel-time part of an extraction result.  A unit or direction that
is absent is substituted by the defaults minutes and one-way at use sites
(the dict get with default in the source). -/
structure ExtractedTravelTime where
  value : Option Int := none
  unit : Option String := none
  direction : Option String := none
deriving DecidableEq, Repr

/-- The fields of the free-form extraction dict that the route reads. -/
structure Extraction where
  location : ExtractedLocation := {}
  travel_time : ExtractedTravelTime := {}
  activity_type : Option String := none
  meals : List String := []
  child_age : Option String := none
  transportation : Option String := none
  enough_to_generate : Bool := false
deriving DecidableEq, Repr

/-- Python truthiness of an optional integer (None and 0 are falsy). -/
def intTruthy : Option Int → Bool
  | none => false
  | some v => !(v = 0)

/-- The preference updates the INITIAL branch applies from an extraction:
location only when no coordinates were captured this turn, then travel time,
activity type, child age, transportation and meals, each only when truthy. -/
def applyExtractionUpdates (p0 : UserPreferences) (coordsSet : Bool) (ex : Extraction) :
    UserPreferences :=
  let p1 := if strTruthy ex.location.address && !coordsSet then
      updatePrefsKwargs p0
        [("location", PrefValue.locVal ⟨ex.location.address.getD "", none, none⟩)]
    else p0
  let p2 := if intTruthy ex.travel_time.value then
      updatePrefsKwargs p1
        [("travel_time", PrefValue.timeVal
          ⟨ex.travel_time.value.getD 0, ex.travel_time.unit.getD "minutes",
           ex.travel_time.direction.getD "one-way"⟩)]
    else p1
  let p3 := if strTruthy ex.activity_type then
      updatePrefsKwargs p2 [("activity_type", PrefValue.strVal (ex.activity_type.getD ""))]
    else p2
  let p4 := if strTruthy ex.child_age then
      updatePrefsKwargs p3 [("child_age", PrefValue.strVal (ex.child_age.getD ""))]
    else p3
  let p5 := if strTruthy ex.transportation then
      updatePrefsKwargs p4 [("transportation", PrefValue.strVal (ex.transportation.getD ""))]
    else p4
  if !ex.meals.isEmpty then
    updatePrefsKwargs p5 [("meals", PrefValue.strListVal ex.meals)]
  else p5

/-- The clarifying question the INITIAL branch would select from the first
critical-missing entry (the code after the FREE_INPUT transition attempt). -/
def initialCriticalQuestion (missing : List String) : TurnOutcome :=
  match missing with
  | [] => .reply "ありがとうございます。プランを作成しますね。" (some []) none
  | item :: _ =>
    if item = "location" then .reply "どちらから出発されますか？" (some []) none
    else if item = "child_age" then
      .reply "お子様は何歳ですか？" (some ["0-2歳", "3-5歳", "6-8歳", "9-12歳", "その他"]) none
    else if item = "transportation" then
      .reply "移動手段は車と公共交通機関、どちらをご利用予定ですか？" (some ["車", "電車・バス"]) none
    else if item = "travel_time" then
      .reply "移動時間はどのくらいまで大丈夫ですか？（片道）" (some ["30分以内", "1時間以内", "2時間以内"]) none
    else .reply "他に希望はありますか？" (some []) none

/-- The generic fallback reply of the INITIAL except branch. -/
def initialFallback : TurnOutcome :=
  .reply "どこへ行きたいか、もう少し詳しく教えていただけますか？\n例：「新宿から1時間くらいで行ける子供向けの場所」" (some []) none

/-- Inputs of one INITIAL turn: the coordinate-pattern result on the message
and the extraction outcome (the route defends against the extraction call
raising, hence the Except). -/
structure InitialEnv where
  coords : Option (Rat × Rat)
  extracted : Except String Extraction

/-- The INITIAL branch.  On the happy path with enough_to_generate and
sufficient preferences it commits GENERATING_PLAN and re-enters the handler;
every other path attempts a transition to the FREE_INPUT member of
ConversationState, which does not exist: the AttributeError raised inside
the try block reaches the except branch, whose own FREE_INPUT transition
raises again, unhandled (the nested lookups mirror the two attempts). -/
def handleInitial (p0 : UserPreferences) (env : InitialEnv) : Except PyErr StepResult :=
  let p1 := match env.coords with
    | some c =>
      updatePrefsKwargs p0 [("location", PrefValue.locVal ⟨"現在地", some c.1, some c.2⟩)]
    | none => p0
  match env.extracted with
  | .error _ =>
    match conversationStateMember "FREE_INPUT" with
    | none => .error .attributeError
    | some st => .ok ⟨p1, st, initialFallback, false⟩
  | .ok ex =>
    let p2 := applyExtractionUpdates p1 env.coords.isSome ex
    if ex.enough_to_generate && has_sufficient_preferences p2 then
      match conversationStateMember "GENERATING_PLAN" with
      | none => .error .attributeError
      | some st => .ok ⟨p2, st, .reprocess st, false⟩
    else
      match conversationStateMember "FREE_INPUT" with
      | some st => .ok ⟨p2, st, initialCriticalQuestion (get_critical_missing_info p2), false⟩
      | none =>
        match conversationStateMember "FREE_INPUT" with
        | some st => .ok ⟨p2, st, initialFallback, false⟩
        | none => .error .attributeError

/-- The critical-item question selection of the FREE_INPUT branch (both the
keyword path and the AI-extraction path select from the FIRST entry of the
critical-missing list only; any other first entry falls through to
generation). -/
def freeInputCriticalQuestion (missing : List String) : Option (String × List String) :=
  match missing with
  | [] => none
  | item :: _ =>
    if item = "child_age" then
      some ("お子様は何歳ですか？", ["0-2歳", "3-5歳", "6-8歳", "9-12歳", "その他"])
    else if item = "location" then
      some ("どこから出発されますか？", [])
    else none

/-! ## Free-text extractor JSON recovery (services/vertex_ai.py)

extract_preferences_from_freeform feeds the collaborator's raw reply through
str.strip, locates the regex span from the first opening brace to the last
closing brace (the greedy brace pattern with re.search), parses it with
json.loads, and converts every failure, raise included, into the canonical
empty extraction.  The JSON value space and the stdlib parser are modelled
abstractly: the parser is a parameter, the value space a plain inductive. -/

/-- A parsed JSON value. -/
inductive Json
  | nullVal
  | boolVal (b : Bool)
  | numVal (n : Int)
  | strVal (s : String)
  | arrVal (xs : List Json)
  | objVal (fields : List (String × Json))

/-- The canonical empty extraction returned by _empty_extraction. -/
def emptyExtractionJson : Json :=
  .objVal
    [("location", .objVal [("address", .nullVal), ("explicit", .boolVal false)]),
     ("travel_time", .objVal [("value", .nullVal), ("direction", .nullVal), ("unit", .nullVal)]),
     ("activity_type", .nullVal),
     ("meals", .arrVal []),
     ("child_age", .nullVal),
     ("transportation", .nullVal),
     ("destination", .nullVal),
     ("special_requirements", .arrVal []),
     ("enough_to_generate", .boolVal false)]

/-- The greedy brace regex with re.search: the matched span runs from the
first opening brace to the last closing brace after it; none when no such
pair exists. -/
def findJsonSpan (cs : List Char) : Option (List Char) :=
  match cs.dropWhile (fun c => !(c = '{')) with
  | [] => none
  | c :: rest =>
    match rest.reverse.dropWhile (fun c => !(c = '}')) with
    | [] => none
    | r => some (c :: r.reverse)

/-- extract_preferences_from_freeform, parameterised by the collaborator
outcome (the generated reply or the raised error's text) and the stdlib JSON
parser.  Every failure path yields the canonical empty extraction; the
function is total, so no exception can escape it. -/
def extract_preferences_from_freeform :
    Except String String → (List Char → Option Json) → Json
  | .error _, _ => emptyExtractionJson
  | .ok raw, parseJson =>
    match findJsonSpan (stripChars raw.toList) with
    | none => emptyExtractionJson
    | some span =>
      match parseJson span with
      | some j => j
      | none => emptyExtractionJson

/-! ## Demo values for concrete theorem instances -/

/-- A preference set passing the PRESENTING_PLAN prerequisite check. -/
def completePrefs : UserPreferences :=
  { location := { address := "新宿" }, activity_type := some "indoor",
    child_age := some "3", travel_time := some ⟨60, "minutes", "one-way"⟩,
    transportation := some "car" }

/-- The complete preference set with the additional-request cap reached. -/
def cappedPrefs : UserPreferences :=
  { completePrefs with spots_request_count := 2 }

/-- A places collaborator that never finds a candidate. -/
def nullPlacesEnv : PlacesEnv :=
  { find_place_by_text := fun _ _ => .ok none
    get_place_details := fun _ => .ok {}
    apiKey := "" }

/-- A places collaborator resolving the facility AlphaPark to the id p2. -/
def alphaPlacesEnv : PlacesEnv :=
  { find_place_by_text := fun q _ => if q = "AlphaPark" then .ok (some "p2") else .ok none
    get_place_details := fun _ => .ok {}
    apiKey := "" }

/-- A places collaborator that raises on the facility B and resolves every
other facility name q to the id id-q. -/
def mixedPlacesEnv : PlacesEnv :=
  { find_place_by_text := fun q _ => if q = "B" then .error "boom" else .ok (some ("id-" ++ q))
    get_place_details := fun pid => .ok { name := some pid }
    apiKey := "" }

/-! ## Helper lemmas -/

theorem string_isEmpty_false_iff (s : String) : s.isEmpty = false ↔ ¬s = "" := by
  simp [Bool.eq_false_iff, String.isEmpty_iff]

theorem updatePrefs_shown_eq (p : UserPreferences) (xs : List String) :
    updatePrefsKwargs p [("shown_place_ids", PrefValue.strListVal xs)] =
      { p with shown_place_ids := xs } := rfl

theorem updatePrefs_shown_count_eq (p : UserPreferences) (xs : List String) (n : Nat) :
    updatePrefsKwargs p
        [("shown_place_ids", PrefValue.strListVal xs), ("spots_request_count", PrefValue.natVal n)] =
      { p with shown_place_ids := xs, spots_request_count := n } := rfl

theorem updatePrefs_activity_eq (p : UserPreferences) (s : String) :
    updatePrefsKwargs p [("activity_type", PrefValue.strVal s)] =
      { p with activity_type := some s } := rfl

theorem updatePrefs_transportation_eq (p : UserPreferences) (s : String) :
    updatePrefsKwargs p [("transportation", PrefValue.strVal s)] =
      { p with transportation := some s } := rfl

theorem updatePrefs_child_eq (p : UserPreferences) (s : String) :
    updatePrefsKwargs p [("child_age", PrefValue.strVal s)] =
      { p with child_age := some s } := rfl

theorem updatePrefs_travel_eq (p : UserPreferences) (t : TravelTime) :
    updatePrefsKwargs p [("travel_time", PrefValue.timeVal t)] =
      { p with travel_time := some t } := rfl

theorem updatePrefs_location_eq (p : UserPreferences) (l : Location) :
    updatePrefsKwargs p [("location", PrefValue.locVal l)] =
      { p with location := l } := rfl

theorem updatePrefs_meals_eq (p : UserPreferences) (m : List String) :
    updatePrefsKwargs p [("meals", PrefValue.strListVal m)] =
      { p with meals := m } := rfl

theorem setPrefAttr_child_age_frame (p : UserPreferences) (k : String) (v : PrefValue)
    (h : ¬k = "child_age") : (setPrefAttr p k v).child_age = p.child_age := by
  unfold setPrefAttr
  split_ifs <;> first | exact absurd (by assumption) h | (cases v <;> rfl) | rfl

theorem setPrefAttr_location_frame (p : UserPreferences) (k : String) (v : PrefValue)
    (h : ¬k = "location") : (setPrefAttr p k v).location = p.location := by
  unfold setPrefAttr
  split_ifs <;> first | exact absurd (by assumption) h | (cases v <;> rfl) | rfl

theorem setPrefAttr_travel_time_frame (p : UserPreferences) (k : String) (v : PrefValue)
    (h : ¬k = "travel_time") : (setPrefAttr p k v).travel_time = p.travel_time := by
  unfold setPrefAttr
  split_ifs <;> first | exact absurd (by assumption) h | (cases v <;> rfl) | rfl

theorem setPrefAttr_activity_frame (p : UserPreferences) (k : String) (v : PrefValue)
    (h : ¬k = "activity_type") : (setPrefAttr p k v).activity_type = p.activity_type := by
  unfold setPrefAttr
  split_ifs <;> first | exact absurd (by assumption) h | (cases v <;> rfl) | rfl

theorem setPrefAttr_meals_frame (p : UserPreferences) (k : String) (v : PrefValue)
    (h : ¬k = "meals") : (setPrefAttr p k v).meals = p.meals := by
  unfold setPrefAttr
  split_ifs <;> first | exact absurd (by assumption) h | (cases v <;> rfl) | rfl

theorem setPrefAttr_transportation_frame (p : UserPreferences) (k : String) (v : PrefValue)
    (h : ¬k = "transportation") : (setPrefAttr p k v).transportation = p.transportation := by
  unfold setPrefAttr
  split_ifs <;> first | exact absurd (by assumption) h | (cases v <;> rfl) | rfl

theorem setPrefAttr_special_frame (p : UserPreferences) (k : String) (v : PrefValue)
    (h : ¬k = "special_requirements") :
    (setPrefAttr p k v).special_requirements = p.special_requirements := by
  unfold setPrefAttr
  split_ifs <;> first | exact absurd (by assumption) h | (cases v <;> rfl) | rfl

theorem setPrefAttr_shown_frame (p : UserPreferences) (k : String) (v : PrefValue)
    (h : ¬k = "shown_place_ids") : (setPrefAttr p k v).shown_place_ids = p.shown_place_ids := by
  unfold setPrefAttr
  split_ifs <;> first | exact absurd (by assumption) h | (cases v <;> rfl) | rfl

theorem setPrefAttr_count_frame (p : UserPreferences) (k : String) (v : PrefValue)
    (h : ¬k = "spots_request_count") :
    (setPrefAttr p k v).spots_request_count = p.spots_request_count := by
  unfold setPrefAttr
  split_ifs <;> first | exact absurd (by assumption) h | (cases v <;> rfl) | rfl

/-! ## C1 -/

/-- C1: the claim asserts FREE_INPUT is a member of the dialogue state set
and that in state INITIAL a not-enough-to-generate turn (or an extractor
failure) transitions the session to FREE_INPUT with a clarifying question or
a generic fallback, never an unhandled error.  The code contradicts this:
the ConversationState enum of models/conversation.py has no FREE_INPUT
member, so the transition attempts of the INITIAL branch of routes/chat.py
raise an AttributeError inside the try block, and the except branch's own
FREE_INPUT transition raises again, unhandled.  Evaluated here on the
spec's cold-start scenario (an utterance whose extraction comes back empty
with enough_to_generate false) and on an extractor failure. -/
theorem C1_free_input_member_missing :
    conversationStateMember "FREE_INPUT" = none ∧
    handleInitial {} { coords := none, extracted := .ok {} } =
      .error .attributeError ∧
    handleInitial {} { coords := none, extracted := .error "boom" } =
      .error .attributeError :=
  ⟨rfl, rfl, rfl⟩

/-! ## C9 -/

/-- C9: the claim says keyword matching never sets transportation to car on
a negated or ambiguous car mention and that a public-transit term sets
transportation to public.  The code contradicts both: the utterance
車はありません (the user stating no car is available) contains the
affirmative substring あり and is set to car, and the utterance 電車・バス
(the quick reply the code itself offers) contains the 車 character, so the
first branch swallows it, finds no affirmative, and the public-transit elif
is never examined — transportation stays unset; the bare 電車 behaves the
same way. -/
theorem C9_transportation_keyword_divergence :
    keywordTransportation "車はありません" = some "car" ∧
    keywordTransportation "電車・バス" = none ∧
    keywordTransportation "電車" = none ∧
    (freeInputKeywordStep {} "車はありません").prefs.transportation = some "car" ∧
    (freeInputKeywordStep {} "電車・バス").prefs.transportation = none :=
  ⟨rfl, rfl, rfl, rfl, rfl⟩

/-! ## C2 -/

/-- C2: has_sufficient_preferences returns true exactly when the location
address is non-empty and at least one of activity_type (a non-empty string,
the source tests Python truthiness) or travel_time is set; in particular it
is false whenever the address is empty, whatever the other fields hold. -/
theorem C2_has_sufficient_preferences_iff :
    ∀ p : UserPreferences,
      (has_sufficient_preferences p = true ↔
        (p.location.address ≠ "" ∧
          ((∃ a, p.activity_type = some a ∧ a ≠ "") ∨ p.travel_time ≠ none))) ∧
      (p.location.address = "" → has_sufficient_preferences p = false) := by
  intro p
  constructor
  · unfold has_sufficient_preferences
    cases ha : p.activity_type <;> cases ht : p.travel_time <;>
      simp [strTruthy, string_isEmpty_false_iff, ha, ht]
  · intro h
    unfold has_sufficient_preferences
    rw [h]
    rfl

/-- C2 witness: a session with an empty address but travel time and activity
set is judged insufficient. -/
theorem C2_witness :
    has_sufficient_preferences
      { location := { address := "" }, activity_type := some "indoor",
        travel_time := some ⟨60, "minutes", "one-way"⟩, child_age := some "3",
        transportation := some "car" } = false :=
  (C2_has_sufficient_preferences_iff
    { location := { address := "" }, activity_type := some "indoor",
      travel_time := some ⟨60, "minutes", "one-way"⟩, child_age := some "3",
      transportation := some "car" }).2 rfl

/-! ## C7 -/

/-- C7: get_critical_missing_info puts location first exactly when the
address is empty; child_age is in the list exactly when child_age is absent
while activity_type is set and its lowercased text contains a family/child
marker token; and the question selection of the FREE_INPUT branch depends
only on the first entry of the list, so callers act on at most one item per
turn. -/
theorem C7_critical_missing_info_spec :
    (∀ p : UserPreferences,
      ((get_critical_missing_info p).head? = some "location" ↔ p.location.address = "") ∧
      ("child_age" ∈ get_critical_missing_info p ↔
        (strTruthy p.child_age = false ∧ strTruthy p.activity_type = true ∧
          familyMarkerWords.any (fun w =>
            containsSub w.toList (lowerChars ((p.activity_type.getD "").toList))) = true))) ∧
    (∀ l l' : List String, l.head? = l'.head? →
      freeInputCriticalQuestion l = freeInputCriticalQuestion l') := by
  constructor
  · intro p
    unfold get_critical_missing_info
    by_cases ha : p.location.address = ""
    case pos =>
      have hEmpty : p.location.address.isEmpty = true := by rw [ha]; rfl
      have hAddr : strTruthy (some p.location.address) = false := by
        show (!p.location.address.isEmpty) = false
        rw [hEmpty]
        rfl
      cases hb1 : strTruthy p.child_age <;>
        cases hb2 : strTruthy p.activity_type <;>
        cases hb3 : familyMarkerWords.any (fun w =>
          containsSub w.toList (lowerChars ((p.activity_type.getD "").toList))) <;>
        simp [hAddr, hb1, hb2, hb3, ha] <;> try decide
    case neg =>
      have hEmpty : p.location.address.isEmpty = false := (string_isEmpty_false_iff p.location.address).mpr ha
      have hAddr : strTruthy (some p.location.address) = true := by
        show (!p.location.address.isEmpty) = true
        rw [hEmpty]
        rfl
      cases hb1 : strTruthy p.child_age <;>
        cases hb2 : strTruthy p.activity_type <;>
        cases hb3 : familyMarkerWords.any (fun w =>
          containsSub w.toList (lowerChars ((p.activity_type.getD "").toList))) <;>
        simp [hAddr, hb1, hb2, hb3, ha] <;> try decide
  · intro l l' h
    cases l with
    | nil =>
      cases l' with
      | nil => rfl
      | cons b t => simp at h
    | cons a t =>
      cases l' with
      | nil => simp at h
      | cons b t' =>
        simp only [List.head?_cons, Option.some.injEq] at h
        subst h
        rfl

/-- C7 witness: the selection is the same for two lists sharing the first
entry, and the scenario with a family marker in the activity type and no
child age lists child_age. -/
theorem C7_witness :
    freeInputCriticalQuestion ["child_age", "transportation"] =
      freeInputCriticalQuestion ["child_age"] ∧
    "child_age" ∈ get_critical_missing_info
      { location := { address := "横浜駅" }, activity_type := some "子供向け動物園" } :=
  ⟨C7_critical_missing_info_spec.2 ["child_age", "transportation"] ["child_age"] rfl,
   ((C7_critical_missing_info_spec.1
      { location := { address := "横浜駅" }, activity_type := some "子供向け動物園" }).2).mpr
     ⟨rfl, rfl, rfl⟩⟩

/-! ## C10 helper lemmas -/

theorem updatePrefsKwargs_cons (p : UserPreferences) (kv : String × PrefValue)
    (rest : List (String × PrefValue)) :
    updatePrefsKwargs p (kv :: rest) =
      updatePrefsKwargs (if userPrefsHasAttr kv.1 then setPrefAttr p kv.1 kv.2 else p) rest := by
  unfold updatePrefsKwargs
  simp [List.foldl_cons]

theorem updatePrefsKwargs_location_frame (kwargs : List (String × PrefValue)) :
    ∀ p : UserPreferences, "location" ∉ kwargs.map Prod.fst →
      (updatePrefsKwargs p kwargs).location = p.location := by
  induction kwargs with
  | nil => intro p _; rfl
  | cons kv rest ih =>
    intro p h
    have hk : ¬kv.1 = "location" := fun hcontra => h (by simp [hcontra])
    have hrest : "location" ∉ rest.map Prod.fst := fun hcontra => h (by simp [hcontra])
    rw [updatePrefsKwargs_cons, ih _ hrest]
    by_cases hattr : userPrefsHasAttr kv.1 = true
    · simp [hattr, setPrefAttr_location_frame _ _ _ hk]
    · simp [Bool.not_eq_true] at hattr
      simp [hattr]

theorem updatePrefsKwargs_travel_time_frame (kwargs : List (String × PrefValue)) :
    ∀ p : UserPreferences, "travel_time" ∉ kwargs.map Prod.fst →
      (updatePrefsKwargs p kwargs).travel_time = p.travel_time := by
  induction kwargs with
  | nil => intro p _; rfl
  | cons kv rest ih =>
    intro p h
    have hk : ¬kv.1 = "travel_time" := fun hcontra => h (by simp [hcontra])
    have hrest : "travel_time" ∉ rest.map Prod.fst := fun hcontra => h (by simp [hcontra])
    rw [updatePrefsKwargs_cons, ih _ hrest]
    by_cases hattr : userPrefsHasAttr kv.1 = true
    · simp [hattr, setPrefAttr_travel_time_frame _ _ _ hk]
    · simp [Bool.not_eq_true] at hattr
      simp [hattr]

theorem updatePrefsKwargs_activity_frame (kwargs : List (String × PrefValue)) :
    ∀ p : UserPreferences, "activity_type" ∉ kwargs.map Prod.fst →
      (updatePrefsKwargs p kwargs).activity_type = p.activity_type := by
  induction kwargs with
  | nil => intro p _; rfl
  | cons kv rest ih =>
    intro p h
    have hk : ¬kv.1 = "activity_type" := fun hcontra => h (by simp [hcontra])
    have hrest : "activity_type" ∉ rest.map Prod.fst := fun hcontra => h (by simp [hcontra])
    rw [updatePrefsKwargs_cons, ih _ hrest]
    by_cases hattr : userPrefsHasAttr kv.1 = true
    · simp [hattr, setPrefAttr_activity_frame _ _ _ hk]
    · simp [Bool.not_eq_true] at hattr
      simp [hattr]

theorem updatePrefsKwargs_meals_frame (kwargs : List (String × PrefValue)) :
    ∀ p : UserPreferences, "meals" ∉ kwargs.map Prod.fst →
      (updatePrefsKwargs p kwargs).meals = p.meals := by
  induction kwargs with
  | nil => intro p _; rfl
  | cons kv rest ih =>
    intro p h
    have hk : ¬kv.1 = "meals" := fun hcontra => h (by simp [hcontra])
    have hrest : "meals" ∉ rest.map Prod.fst := fun hcontra => h (by simp [hcontra])
    rw [updatePrefsKwargs_cons, ih _ hrest]
    by_cases hattr : userPrefsHasAttr kv.1 = true
    · simp [hattr, setPrefAttr_meals_frame _ _ _ hk]
    · simp [Bool.not_eq_true] at hattr
      simp [hattr]

theorem updatePrefsKwargs_child_age_frame (kwargs : List (String × PrefValue)) :
    ∀ p : UserPreferences, "child_age" ∉ kwargs.map Prod.fst →
      (updatePrefsKwargs p kwargs).child_age = p.child_age := by
  induction kwargs with
  | nil => intro p _; rfl
  | cons kv rest ih =>
    intro p h
    have hk : ¬kv.1 = "child_age" := fun hcontra => h (by simp [hcontra])
    have hrest : "child_age" ∉ rest.map Prod.fst := fun hcontra => h (by simp [hcontra])
    rw [updatePrefsKwargs_cons, ih _ hrest]
    by_cases hattr : userPrefsHasAttr kv.1 = true
    · simp [hattr, setPrefAttr_child_age_frame _ _ _ hk]
    · simp [Bool.not_eq_true] at hattr
      simp [hattr]

theorem updatePrefsKwargs_transportation_frame (kwargs : List (String × PrefValue)) :
    ∀ p : UserPreferences, "transportation" ∉ kwargs.map Prod.fst →
      (updatePrefsKwargs p kwargs).transportation = p.transportation := by
  induction kwargs with
  | nil => intro p _; rfl
  | cons kv rest ih =>
    intro p h
    have hk : ¬kv.1 = "transportation" := fun hcontra => h (by simp [hcontra])
    have hrest : "transportation" ∉ rest.map Prod.fst := fun hcontra => h (by simp [hcontra])
    rw [updatePrefsKwargs_cons, ih _ hrest]
    by_cases hattr : userPrefsHasAttr kv.1 = true
    · simp [hattr, setPrefAttr_transportation_frame _ _ _ hk]
    · simp [Bool.not_eq_true] at hattr
      simp [hattr]

theorem updatePrefsKwargs_special_frame (kwargs : List (String × PrefValue)) :
    ∀ p : UserPreferences, "special_requirements" ∉ kwargs.map Prod.fst →
      (updatePrefsKwargs p kwargs).special_requirements = p.special_requirements := by
  induction kwargs with
  | nil => intro p _; rfl
  | cons kv rest ih =>
    intro p h
    have hk : ¬kv.1 = "special_requirements" := fun hcontra => h (by simp [hcontra])
    have hrest : "special_requirements" ∉ rest.map Prod.fst := fun hcontra => h (by simp [hcontra])
    rw [updatePrefsKwargs_cons, ih _ hrest]
    by_cases hattr : userPrefsHasAttr kv.1 = true
    · simp [hattr, setPrefAttr_special_frame _ _ _ hk]
    · simp [Bool.not_eq_true] at hattr
      simp [hattr]

theorem updatePrefsKwargs_shown_frame (kwargs : List (String × PrefValue)) :
    ∀ p : UserPreferences, "shown_place_ids" ∉ kwargs.map Prod.fst →
      (updatePrefsKwargs p kwargs).shown_place_ids = p.shown_place_ids := by
  induction kwargs with
  | nil => intro p _; rfl
  | cons kv rest ih =>
    intro p h
    have hk : ¬kv.1 = "shown_place_ids" := fun hcontra => h (by simp [hcontra])
    have hrest : "shown_place_ids" ∉ rest.map Prod.fst := fun hcontra => h (by simp [hcontra])
    rw [updatePrefsKwargs_cons, ih _ hrest]
    by_cases hattr : userPrefsHasAttr kv.1 = true
    · simp [hattr, setPrefAttr_shown_frame _ _ _ hk]
    · simp [Bool.not_eq_true] at hattr
      simp [hattr]

theorem updatePrefsKwargs_count_frame (kwargs : List (String × PrefValue)) :
    ∀ p : UserPreferences, "spots_request_count" ∉ kwargs.map Prod.fst →
      (updatePrefsKwargs p kwargs).spots_request_count = p.spots_request_count := by
  induction kwargs with
  | nil => intro p _; rfl
  | cons kv rest ih =>
    intro p h
    have hk : ¬kv.1 = "spots_request_count" := fun hcontra => h (by simp [hcontra])
    have hrest : "spots_request_count" ∉ rest.map Prod.fst := fun hcontra => h (by simp [hcontra])
    rw [updatePrefsKwargs_cons, ih _ hrest]
    by_cases hattr : userPrefsHasAttr kv.1 = true
    · simp [hattr, setPrefAttr_count_frame _ _ _ hk]
    · simp [Bool.not_eq_true] at hattr
      simp [hattr]

theorem getSession_storeSet (store : SessionStore) (sid : String) (sess : ConversationSession) :
    getSession (storeSet store sid sess) sid = some sess := by
  induction store with
  | nil => simp [storeSet, getSession]
  | cons kv rest ih =>
    cases kv with
    | mk k s =>
      unfold storeSet
      by_cases h : k = sid
      · simp [h, getSession]
      · simp only [if_neg h]
        unfold getSession
        simp [h, ih]

/-! ## C10 -/

/-- C10: update_preferences touches exactly the attributes named by its
keyword arguments — a key that is not an attribute of UserPreferences is
silently skipped (when every key is unknown the preference set is returned
unchanged), every field not named keeps its value, and the session is still
saved to the store with last_updated bumped to the current time (the hid
hypothesis is the store invariant that an entry's key is its session id).
The embedding is total, so no error is raised for unknown keys. -/
theorem C10_update_preferences_frame :
    (∀ (p : UserPreferences) (kwargs : List (String × PrefValue)),
      (∀ kv ∈ kwargs, userPrefsHasAttr kv.1 = false) → updatePrefsKwargs p kwargs = p) ∧
    (∀ (p : UserPreferences) (kwargs : List (String × PrefValue)),
      ("location" ∉ kwargs.map Prod.fst → (updatePrefsKwargs p kwargs).location = p.location) ∧
      ("travel_time" ∉ kwargs.map Prod.fst →
        (updatePrefsKwargs p kwargs).travel_time = p.travel_time) ∧
      ("activity_type" ∉ kwargs.map Prod.fst →
        (updatePrefsKwargs p kwargs).activity_type = p.activity_type) ∧
      ("meals" ∉ kwargs.map Prod.fst → (updatePrefsKwargs p kwargs).meals = p.meals) ∧
      ("child_age" ∉ kwargs.map Prod.fst →
        (updatePrefsKwargs p kwargs).child_age = p.child_age) ∧
      ("transportation" ∉ kwargs.map Prod.fst →
        (updatePrefsKwargs p kwargs).transportation = p.transportation) ∧
      ("special_requirements" ∉ kwargs.map Prod.fst →
        (updatePrefsKwargs p kwargs).special_requirements = p.special_requirements) ∧
      ("shown_place_ids" ∉ kwargs.map Prod.fst →
        (updatePrefsKwargs p kwargs).shown_place_ids = p.shown_place_ids) ∧
      ("spots_request_count" ∉ kwargs.map Prod.fst →
        (updatePrefsKwargs p kwargs).spots_request_count = p.spots_request_count)) ∧
    (∀ (store : SessionStore) (sid : String) (kwargs : List (String × PrefValue)) (now : Nat)
        (sess : ConversationSession),
      getSession store sid = some sess → sess.session_id = sid →
        (update_preferences store sid kwargs now).2 =
          some { sess with
                  user_preferences := updatePrefsKwargs sess.user_preferences kwargs,
                  last_updated := now } ∧
        getSession (update_preferences store sid kwargs now).1 sid =
          some { sess with
                  user_preferences := updatePrefsKwargs sess.user_preferences kwargs,
                  last_updated := now }) ∧
    (∀ (store : SessionStore) (sid : String) (kwargs : List (String × PrefValue)) (now : Nat),
      getSession store sid = none → update_preferences store sid kwargs now = (store, none)) := by
  refine ⟨?_, ?_, ?_, ?_⟩
  · intro p kwargs h
    induction kwargs generalizing p with
    | nil => rfl
    | cons kv rest ih =>
      have hk : userPrefsHasAttr kv.1 = false := h kv (List.mem_cons_self kv rest)
      rw [updatePrefsKwargs_cons]
      simp only [hk, Bool.false_eq_true, if_false]
      exact ih p (fun kv' h' => h kv' (List.mem_cons_of_mem kv h'))
  · intro p kwargs
    exact ⟨updatePrefsKwargs_location_frame kwargs p,
      updatePrefsKwargs_travel_time_frame kwargs p,
      updatePrefsKwargs_activity_frame kwargs p,
      updatePrefsKwargs_meals_frame kwargs p,
      updatePrefsKwargs_child_age_frame kwargs p,
      updatePrefsKwargs_transportation_frame kwargs p,
      updatePrefsKwargs_special_frame kwargs p,
      updatePrefsKwargs_shown_frame kwargs p,
      updatePrefsKwargs_count_frame kwargs p⟩
  · intro store sid kwargs now sess hget hid
    unfold update_preferences
    rw [hget]
    constructor
    · rfl
    · show getSession (updateSession store
        { sess with user_preferences := updatePrefsKwargs sess.user_preferences kwargs } now)
          sid = _
      unfold updateSession
      have hsid : ({ sess with
          user_preferences := updatePrefsKwargs sess.user_preferences kwargs
          : ConversationSession }).session_id = sid := hid
      rw [hsid, getSession_storeSet]
  · intro store sid kwargs now hget
    unfold update_preferences
    rw [hget]

/-- C10 witness: an update whose single key names no attribute leaves the
preferences unchanged and still bumps last_updated in the store. -/
theorem C10_witness :
    updatePrefsKwargs {} [("nonexistent_field", PrefValue.strVal "x")] = {} ∧
    (update_preferences [("sid-1", { session_id := "sid-1", last_updated := 5 })] "sid-1"
        [("nonexistent_field", PrefValue.strVal "x")] 9).2 =
      some { session_id := "sid-1",
             user_preferences := updatePrefsKwargs {} [("nonexistent_field", PrefValue.strVal "x")],
             last_updated := 9 } :=
  ⟨C10_update_preferences_frame.1 {} [("nonexistent_field", PrefValue.strVal "x")]
      (by intro kv h; simp at h; rw [h]; rfl),
   (C10_update_preferences_frame.2.2.1 [("sid-1", { session_id := "sid-1", last_updated := 5 })]
      "sid-1" [("nonexistent_field", PrefValue.strVal "x")] 9
      { session_id := "sid-1", last_updated := 5 } rfl rfl).1⟩

/-! ## C4 helper lemmas -/

theorem mem_of_mem_dropWhile {α : Type} (p : α → Bool) (l : List α) (c : α)
    (h : c ∈ l.dropWhile p) : c ∈ l :=
  (List.dropWhile_suffix p).sublist.subset h

theorem dropWhile_append_all {α : Type} (p : α → Bool) (l₁ l₂ : List α)
    (h : ∀ c ∈ l₁, p c = true) : (l₁ ++ l₂).dropWhile p = l₂.dropWhile p := by
  induction l₁ with
  | nil => rfl
  | cons a t ih =>
    simp only [List.cons_append, List.dropWhile_cons]
    rw [h a (List.mem_cons_self a t)]
    simp only [if_true]
    exact ih (fun c hc => h c (List.mem_cons_of_mem a hc))

theorem dropWhile_append_stop {α : Type} (p : α → Bool) (l₁ l₂ : List α) (c : α)
    (hc : p c = false) : (l₁ ++ c :: l₂).dropWhile p = l₁.dropWhile p ++ c :: l₂ := by
  induction l₁ with
  | nil => simp [List.dropWhile_cons, hc]
  | cons a t ih =>
    simp only [List.cons_append, List.dropWhile_cons]
    cases ha : p a
    · simp
    · simp [ih]

theorem stripChars_wrapped_eq (pre mid post : List Char) :
    stripChars (pre ++ '{' :: (mid ++ '}' :: post)) =
      (pre.dropWhile isPySpace) ++ '{' ::
        (mid ++ '}' :: (post.reverse.dropWhile isPySpace).reverse) := by
  unfold stripChars
  rw [dropWhile_append_stop isPySpace pre _ '{' rfl]
  have h1 : (pre.dropWhile isPySpace ++ '{' :: (mid ++ '}' :: post)).reverse
      = post.reverse ++ '}' :: (mid.reverse ++ '{' :: (pre.dropWhile isPySpace).reverse) := by
    simp [List.reverse_append]
  rw [h1, dropWhile_append_stop isPySpace post.reverse _ '}' rfl]
  simp [List.reverse_append]

theorem findJsonSpan_wrapped (pre₁ mid post₁ : List Char)
    (hpre : ∀ c ∈ pre₁, ¬c = '{') (hpost : ∀ c ∈ post₁, ¬c = '}') :
    findJsonSpan (pre₁ ++ '{' :: (mid ++ '}' :: post₁)) = some ('{' :: (mid ++ ['}'])) := by
  unfold findJsonSpan
  have hallPre : ∀ c ∈ pre₁, (!decide (c = '{')) = true := by
    intro c hc
    simp [hpre c hc]
  have houter : List.dropWhile (fun c => !decide (c = '{'))
      (pre₁ ++ '{' :: (mid ++ '}' :: post₁)) = '{' :: (mid ++ '}' :: post₁) := by
    rw [dropWhile_append_all _ pre₁ _ hallPre]
    rw [List.dropWhile_cons]
    simp
  have hallPost : ∀ c ∈ post₁.reverse, (!decide (c = '}')) = true := by
    intro c hc
    simp [hpost c (List.mem_reverse.mp hc)]
  have h3 : List.dropWhile (fun c => !decide (c = '}')) (post₁.reverse ++ '}' :: mid.reverse)
      = '}' :: mid.reverse := by
    rw [dropWhile_append_all _ post₁.reverse ('}' :: mid.reverse) hallPost]
    rw [List.dropWhile_cons]
    simp
  rw [houter]
  simp [h3]

/-! ## C4 -/

/-- C4: extract_preferences_from_freeform never raises — for every reply and
every collaborator-level exception it is a total function whose failure
paths all return the canonical empty extraction: a collaborator error, a
reply with no brace span, and a located span the JSON parser rejects all
yield the empty extraction, while a reply wrapping one valid JSON object in
brace-free leading and trailing prose returns exactly the parsed object. -/
theorem C4_freeform_extraction_robust :
    (∀ (e : String) (parse : List Char → Option Json),
      extract_preferences_from_freeform (.error e) parse = emptyExtractionJson) ∧
    (∀ (raw : String) (parse : List Char → Option Json),
      findJsonSpan (stripChars raw.toList) = none →
        extract_preferences_from_freeform (.ok raw) parse = emptyExtractionJson) ∧
    (∀ (raw : String) (span : List Char) (parse : List Char → Option Json),
      findJsonSpan (stripChars raw.toList) = some span → parse span = none →
        extract_preferences_from_freeform (.ok raw) parse = emptyExtractionJson) ∧
    (∀ (pre mid post : List Char) (j : Json) (parse : List Char → Option Json),
      (∀ c ∈ pre, ¬c = '{' ∧ ¬c = '}') → (∀ c ∈ post, ¬c = '{' ∧ ¬c = '}') →
      parse ('{' :: (mid ++ ['}'])) = some j →
        extract_preferences_from_freeform
          (.ok (String.mk (pre ++ '{' :: (mid ++ '}' :: post)))) parse = j) := by
  refine ⟨fun e parse => rfl, ?_, ?_, ?_⟩
  · intro raw parse h
    show (match findJsonSpan (stripChars raw.toList) with
      | none => emptyExtractionJson
      | some span =>
        match parse span with
        | some j => j
        | none => emptyExtractionJson) = emptyExtractionJson
    rw [h]
  · intro raw span parse h hp
    show (match findJsonSpan (stripChars raw.toList) with
      | none => emptyExtractionJson
      | some span =>
        match parse span with
        | some j => j
        | none => emptyExtractionJson) = emptyExtractionJson
    rw [h]
    simp [hp]
  · intro pre mid post j parse hpre hpost hparse
    show (match findJsonSpan (stripChars
        (String.mk (pre ++ '{' :: (mid ++ '}' :: post))).toList) with
      | none => emptyExtractionJson
      | some span =>
        match parse span with
        | some j => j
        | none => emptyExtractionJson) = j
    have htl : (String.mk (pre ++ '{' :: (mid ++ '}' :: post))).toList
        = pre ++ '{' :: (mid ++ '}' :: post) := rfl
    rw [htl, stripChars_wrapped_eq]
    rw [findJsonSpan_wrapped _ _ _
      (fun c hc => (hpre c (mem_of_mem_dropWhile _ _ c hc)).1)
      (fun c hc => (hpost c (List.mem_reverse.mp
        (mem_of_mem_dropWhile _ _ c (List.mem_reverse.mp hc)))).2)]
    simp [hparse]

/-- C4 witness: a reply wrapping a JSON object in prose recovers the parsed
object; a reply with no JSON and a span the parser rejects both produce the
empty extraction. -/
theorem C4_witness :
    extract_preferences_from_freeform
      (.ok (String.mk ("here: ".toList ++ '{' :: ("x".toList ++ '}' :: " done".toList))))
      (fun cs => if cs = "{x}".toList then some (.boolVal true) else none) = .boolVal true ∧
    extract_preferences_from_freeform (.ok "no json at all")
      (fun _ => some (.boolVal true)) = emptyExtractionJson ∧
    extract_preferences_from_freeform (.ok "bad {o} reply")
      (fun _ => none) = emptyExtractionJson :=
  ⟨C4_freeform_extraction_robust.2.2.2 "here: ".toList "x".toList " done".toList
      (.boolVal true) (fun cs => if cs = "{x}".toList then some (.boolVal true) else none)
      (by decide) (by decide) (by rfl),
   C4_freeform_extraction_robust.2.1 "no json at all" (fun _ => some (.boolVal true)) (by rfl),
   C4_freeform_extraction_robust.2.2.1 "bad {o} reply" "{o}".toList (fun _ => none)
      (by rfl) rfl⟩

/-! ## Branch lemmas for the PRESENTING_PLAN handler -/

theorem handlePresentingPlan_defensive (p : UserPreferences) (msg : String) (env : PlacesEnv)
    (gen : Except String String) (hmiss : presentingPrereqsMissing p = true) :
    handlePresentingPlan p msg env gen =
      .ok ⟨p, .GATHERING_PREFERENCES, .reprocess .GATHERING_PREFERENCES, false⟩ := by
  unfold handlePresentingPlan
  rw [show conversationStateMember "GATHERING_PREFERENCES" =
    some .GATHERING_PREFERENCES from rfl]
  simp [hmiss]

theorem handlePresentingPlan_nonTrigger (p : UserPreferences) (msg : String) (env : PlacesEnv)
    (gen : Except String String) (hmiss : presentingPrereqsMissing p = false)
    (htrig : isShowMoreRequest msg = false) :
    handlePresentingPlan p msg env gen =
      .ok ⟨p, .PRESENTING_PLAN, .reply presentingDefault none none, false⟩ := by
  unfold handlePresentingPlan
  simp [hmiss, htrig]

theorem handlePresentingPlan_refusal (p : UserPreferences) (msg : String) (env : PlacesEnv)
    (gen : Except String String) (hmiss : presentingPrereqsMissing p = false)
    (htrig : isShowMoreRequest msg = true) (hcap : p.spots_request_count ≥ 2) :
    handlePresentingPlan p msg env gen =
      .ok ⟨p, .PRESENTING_PLAN, .reply showMoreRefusal none none, false⟩ := by
  unfold handlePresentingPlan
  simp [hmiss, htrig, hcap]

theorem handlePresentingPlan_genError (p : UserPreferences) (msg : String) (env : PlacesEnv)
    (e : String) (hmiss : presentingPrereqsMissing p = false)
    (htrig : isShowMoreRequest msg = true) (hlt : p.spots_request_count < 2) :
    handlePresentingPlan p msg env (.error e) =
      .ok ⟨p, .PRESENTING_PLAN, .reply showMoreApology none none, true⟩ := by
  unfold handlePresentingPlan
  simp [hmiss, htrig, Nat.not_le.mpr hlt]

theorem handlePresentingPlan_genOk (p : UserPreferences) (msg : String) (env : PlacesEnv)
    (t : String) (hmiss : presentingPrereqsMissing p = false)
    (htrig : isShowMoreRequest msg = true) (hlt : p.spots_request_count < 2) :
    handlePresentingPlan p msg env (.ok t) =
      .ok ⟨{ p with
              shown_place_ids := p.shown_place_ids ++
                (extract_and_enrich_places env t
                  (some ((convertLocationToDict p.location).2.1,
                    (convertLocationToDict p.location).2.2))).map (·.place_id),
              spots_request_count := p.spots_request_count + 1 },
            .PRESENTING_PLAN,
            .reply t
              (if p.spots_request_count + 1 < 2 then some ["他の候補を見る"] else none)
              (some (extract_and_enrich_places env t
                (some ((convertLocationToDict p.location).2.1,
                  (convertLocationToDict p.location).2.2)))),
            true⟩ := by
  unfold handlePresentingPlan
  simp [hmiss, htrig, Nat.not_le.mpr hlt, updatePrefs_shown_count_eq]

/-! ## Branch lemmas for the GENERATING_PLAN handler -/

theorem handleGeneratingPlan_noLocation (p : UserPreferences) (env : PlacesEnv)
    (gen : Except String String) (h : p.location.address.isEmpty = true) :
    handleGeneratingPlan p env gen = .error .attributeError := by
  unfold handleGeneratingPlan
  rw [show conversationStateMember "FREE_INPUT" = (none : Option ConversationState) from rfl]
  simp [h]

theorem handleGeneratingPlan_error (p : UserPreferences) (env : PlacesEnv) (e : String)
    (h : p.location.address.isEmpty = false) :
    handleGeneratingPlan p env (.error e) =
      .ok ⟨(if strTruthy p.activity_type then p
            else updatePrefsKwargs p [("activity_type", PrefValue.strVal "家族向け")]),
           .GENERATING_PLAN, .reply (planErrorMessage e) none none, true⟩ := by
  unfold handleGeneratingPlan
  simp [h]

theorem handleGeneratingPlan_success (p : UserPreferences) (env : PlacesEnv) (text : String)
    (h : p.location.address.isEmpty = false) :
    handleGeneratingPlan p env (.ok text) =
      (let p1 := if strTruthy p.activity_type then p
          else updatePrefsKwargs p [("activity_type", PrefValue.strVal "家族向け")];
       let enriched := extract_and_enrich_places env text
          (some ((convertLocationToDict p1.location).2.1,
            (convertLocationToDict p1.location).2.2));
       let p2 := updatePrefsKwargs p1 [("shown_place_ids",
          PrefValue.strListVal (enriched.map (·.place_id)))];
       .ok ⟨p2, .PRESENTING_PLAN,
            .reply text (if p2.spots_request_count < 2 then some ["他の候補を見る"] else none)
              (some enriched), true⟩) := by
  unfold handleGeneratingPlan
  rw [show conversationStateMember "PRESENTING_PLAN" = some .PRESENTING_PLAN from rfl]
  simp [h]

/-! ## C3 helper lemmas -/

theorem showMore_step_count (p : UserPreferences) (msg : String) (env : PlacesEnv)
    (gen : Except String String) (r : StepResult)
    (h : handlePresentingPlan p msg env gen = .ok r) :
    r.prefs.spots_request_count =
      (if (r.invokedGeneration && exceptIsOk gen) = true
       then p.spots_request_count + 1 else p.spots_request_count) ∧
    ((r.invokedGeneration && exceptIsOk gen) = true → p.spots_request_count < 2) := by
  by_cases hmiss : presentingPrereqsMissing p = true
  · rw [handlePresentingPlan_defensive p msg env gen hmiss] at h
    injection h with h'
    subst h'
    simp
  · have hmiss' : presentingPrereqsMissing p = false := Bool.eq_false_iff.mpr hmiss
    by_cases htrig : isShowMoreRequest msg = true
    · by_cases hcap : p.spots_request_count ≥ 2
      · rw [handlePresentingPlan_refusal p msg env gen hmiss' htrig hcap] at h
        injection h with h'
        subst h'
        simp
      · have hlt : p.spots_request_count < 2 := Nat.lt_of_not_le hcap
        cases gen with
        | error e =>
          rw [handlePresentingPlan_genError p msg env e hmiss' htrig hlt] at h
          injection h with h'
          subst h'
          simp [exceptIsOk]
        | ok t =>
          rw [handlePresentingPlan_genOk p msg env t hmiss' htrig hlt] at h
          injection h with h'
          subst h'
          refine ⟨?_, fun _ => hlt⟩
          simp [exceptIsOk]
    · have htrig' : isShowMoreRequest msg = false := Bool.eq_false_iff.mpr htrig
      rw [handlePresentingPlan_nonTrigger p msg env gen hmiss' htrig'] at h
      injection h with h'
      subst h'
      simp

theorem runShowMore_success_bound (env : PlacesEnv) (msg : String) :
    ∀ (gens : List (Except String String)) (p : UserPreferences),
      (runShowMoreTurns env msg p gens).2.2 ≤ 2 - p.spots_request_count := by
  intro gens
  induction gens with
  | nil => intro p; simp [runShowMoreTurns]
  | cons gen rest ih =>
    intro p
    unfold runShowMoreTurns
    cases hstep : handlePresentingPlan p msg env gen with
    | error e => simp
    | ok r =>
      have hs := showMore_step_count p msg env gen r hstep
      have hrec := ih r.prefs
      cases hflag : (r.invokedGeneration && exceptIsOk gen) with
      | false =>
        rw [hflag] at hs
        simp only [Bool.false_eq_true, if_false] at hs
        have h1 := hs.1
        simp only [hflag, Bool.false_eq_true, if_false]
        omega
      | true =>
        rw [hflag] at hs
        simp only [if_true] at hs
        have h1 := hs.1
        have h2 := hs.2 (by trivial)
        simp only [hflag, if_true]
        omega

/-! ## C3 -/

/-- C3 counterexample: the claim concludes that the generation collaborator
is never invoked for a show-more request more than twice in one session, but
a failed invocation does not increment the counter, so three failing
show-more turns in one session invoke the collaborator three times. -/
theorem C3_counterexample :
    (runShowMoreTurns nullPlacesEnv "他の候補を見る" completePrefs
      [.error "x", .error "y", .error "z"]).2.1 = 3 := rfl

/-- C3 (amended): each successful show-more request increments
spots_request_count by exactly 1 and invokes the generation collaborator; a
show-more request arriving at spots_request_count 2 returns the fixed
refusal without invoking the collaborator and without modifying any
preference field; hence at most 2 successful show-more generation cycles
happen per session (failed invocations do not count toward the cap). -/
theorem C3_show_more_cap :
    (∀ (p : UserPreferences) (msg : String) (env : PlacesEnv) (t : String) (r : StepResult),
      presentingPrereqsMissing p = false → isShowMoreRequest msg = true →
      p.spots_request_count < 2 →
      handlePresentingPlan p msg env (.ok t) = .ok r →
        r.prefs.spots_request_count = p.spots_request_count + 1 ∧
        r.invokedGeneration = true) ∧
    (∀ (p : UserPreferences) (msg : String) (env : PlacesEnv) (gen : Except String String),
      presentingPrereqsMissing p = false → isShowMoreRequest msg = true →
      p.spots_request_count = 2 →
      handlePresentingPlan p msg env gen =
        .ok ⟨p, .PRESENTING_PLAN, .reply showMoreRefusal none none, false⟩) ∧
    (∀ (env : PlacesEnv) (msg : String) (p : UserPreferences)
        (gens : List (Except String String)),
      p.spots_request_count = 0 → (runShowMoreTurns env msg p gens).2.2 ≤ 2) := by
  refine ⟨?_, ?_, ?_⟩
  · intro p msg env t r hmiss htrig hlt h
    rw [handlePresentingPlan_genOk p msg env t hmiss htrig hlt] at h
    injection h with h'
    subst h'
    simp
  · intro p msg env gen hmiss htrig hcount
    exact handlePresentingPlan_refusal p msg env gen hmiss htrig (by omega)
  · intro env msg p gens hcount
    have := runShowMore_success_bound env msg gens p
    omega

/-- C3 witness: at the cap, the concrete show-more turn is refused with the
session record untouched. -/
theorem C3_witness :
    handlePresentingPlan cappedPrefs "他の候補を見る" nullPlacesEnv (.ok "### 1. X\ny") =
      .ok ⟨cappedPrefs, .PRESENTING_PLAN, .reply showMoreRefusal none none, false⟩ :=
  C3_show_more_cap.2.1 cappedPrefs "他の候補を見る" nullPlacesEnv (.ok "### 1. X\ny")
    rfl rfl rfl

/-! ## C5 -/

/-- C5 counterexample: the claim says shown_place_ids is append-only in
every branch of the state machine, plan generation included, but the
GENERATING_PLAN branch assigns the fresh id list wholesale: generating with
shown_place_ids already holding p1 replaces the list with p2, and the old
list is not a prefix of the new one (the Boolean prefix test is false). -/
theorem C5_counterexample :
    ({ completePrefs with shown_place_ids := ["p1"] } : UserPreferences).shown_place_ids
      = ["p1"] ∧
    (handleGeneratingPlan { completePrefs with shown_place_ids := ["p1"] } alphaPlacesEnv
        (.ok "### 1. AlphaPark\nx")).map (fun r => r.prefs.shown_place_ids) = .ok ["p2"] ∧
    List.isPrefixOf ["p1"] ["p2"] = false :=
  ⟨rfl, rfl, rfl⟩

/-- C5 (amended): shown_place_ids is append-only in the show-more branch
(the list before any PRESENTING_PLAN turn is a prefix of the list after it)
and is untouched by the keyword extractor and by the INITIAL extraction
updates; the GENERATING_PLAN branch instead replaces the whole list with the
freshly generated ids — its result does not depend on the previous list, so
the prefix property holds there only when the previous list was empty, as on
the normal first-generation path. -/
theorem C5_shown_place_ids_append :
    (∀ (p : UserPreferences) (msg : String) (env : PlacesEnv) (gen : Except String String)
        (r : StepResult),
      handlePresentingPlan p msg env gen = .ok r →
        ∃ t, r.prefs.shown_place_ids = p.shown_place_ids ++ t) ∧
    (∀ (p : UserPreferences) (env : PlacesEnv) (gen : Except String String) (r : StepResult),
      handleGeneratingPlan p env gen = .ok r → p.shown_place_ids = [] →
        ∃ t, r.prefs.shown_place_ids = p.shown_place_ids ++ t) ∧
    (∀ (p : UserPreferences) (env : PlacesEnv) (text : String) (ids₁ ids₂ : List String),
      (handleGeneratingPlan { p with shown_place_ids := ids₁ } env (.ok text)).map
          (fun r => r.prefs.shown_place_ids) =
        (handleGeneratingPlan { p with shown_place_ids := ids₂ } env (.ok text)).map
          (fun r => r.prefs.shown_place_ids)) ∧
    (∀ (p : UserPreferences) (msg : String),
      (freeInputKeywordStep p msg).prefs.shown_place_ids = p.shown_place_ids) ∧
    (∀ (p : UserPreferences) (b : Bool) (ex : Extraction),
      (applyExtractionUpdates p b ex).shown_place_ids = p.shown_place_ids) := by
  refine ⟨?_, ?_, ?_, ?_, ?_⟩
  · intro p msg env gen r h
    by_cases hmiss : presentingPrereqsMissing p = true
    · rw [handlePresentingPlan_defensive p msg env gen hmiss] at h
      injection h with h'
      subst h'
      exact ⟨[], by simp⟩
    · have hmiss' : presentingPrereqsMissing p = false := Bool.eq_false_iff.mpr hmiss
      by_cases htrig : isShowMoreRequest msg = true
      · by_cases hcap : p.spots_request_count ≥ 2
        · rw [handlePresentingPlan_refusal p msg env gen hmiss' htrig hcap] at h
          injection h with h'
          subst h'
          exact ⟨[], by simp⟩
        · have hlt : p.spots_request_count < 2 := Nat.lt_of_not_le hcap
          cases gen with
          | error e =>
            rw [handlePresentingPlan_genError p msg env e hmiss' htrig hlt] at h
            injection h with h'
            subst h'
            exact ⟨[], by simp⟩
          | ok t =>
            rw [handlePresentingPlan_genOk p msg env t hmiss' htrig hlt] at h
            injection h with h'
            subst h'
            exact ⟨_, rfl⟩
      · have htrig' : isShowMoreRequest msg = false := Bool.eq_false_iff.mpr htrig
        rw [handlePresentingPlan_nonTrigger p msg env gen hmiss' htrig'] at h
        injection h with h'
        subst h'
        exact ⟨[], by simp⟩
  · intro p env gen r h hnil
    by_cases haddr : p.location.address.isEmpty = true
    · rw [handleGeneratingPlan_noLocation p env gen haddr] at h
      exact absurd h (by simp)
    · have haddr' : p.location.address.isEmpty = false := Bool.eq_false_iff.mpr haddr
      cases gen with
      | error e =>
        rw [handleGeneratingPlan_error p env e haddr'] at h
        injection h with h'
        subst h'
        refine ⟨[], ?_⟩
        by_cases hact : strTruthy p.activity_type = true <;>
          simp [hact, updatePrefs_activity_eq]
      | ok text =>
        rw [handleGeneratingPlan_success p env text haddr'] at h
        injection h with h'
        subst h'
        rw [hnil]
        exact ⟨_, by rw [List.nil_append]⟩
  · intro p env text ids₁ ids₂
    by_cases haddr : p.location.address.isEmpty = true
    · rw [handleGeneratingPlan_noLocation { p with shown_place_ids := ids₁ } env _ haddr,
        handleGeneratingPlan_noLocation { p with shown_place_ids := ids₂ } env _ haddr]
    · have haddr' : p.location.address.isEmpty = false := Bool.eq_false_iff.mpr haddr
      rw [handleGeneratingPlan_success { p with shown_place_ids := ids₁ } env text haddr',
        handleGeneratingPlan_success { p with shown_place_ids := ids₂ } env text haddr']
      by_cases hact : strTruthy p.activity_type = true <;>
        simp [hact, updatePrefs_activity_eq, updatePrefs_shown_eq, Except.map]
  · intro p msg
    unfold freeInputKeywordStep
    cases htr : keywordTransportation msg <;>
      cases hage : (if strContains "歳" msg || strContains "才" msg
        then searchAge msg.toList else none) <;>
      cases htime : (if strContains "分" msg && msg.toList.any Char.isDigit then
          (searchNumMarker ['分'] msg.toList).map (fun ds => digitsToNat ds)
        else if strContains "時間" msg && msg.toList.any Char.isDigit then
          (searchNumMarker ['時', '間'] msg.toList).map (fun ds => digitsToNat ds * 60)
        else none) <;>
      simp [htr, hage, htime, updatePrefs_transportation_eq, updatePrefs_child_eq,
        updatePrefs_travel_eq]
  · intro p b ex
    unfold applyExtractionUpdates
    split_ifs <;>
      simp [updatePrefs_location_eq, updatePrefs_travel_eq, updatePrefs_activity_eq,
        updatePrefs_child_eq, updatePrefs_transportation_eq, updatePrefs_meals_eq]

/-- C5 witness: a successful show-more turn really appends — starting from
the list p1 the turn yields p1 followed by the fresh ids. -/
theorem C5_witness :
    ∃ t, (["p1", "p2"] : List String) =
      ({ completePrefs with shown_place_ids := ["p1"] } : UserPreferences).shown_place_ids ++ t :=
  C5_shown_place_ids_append.1 { completePrefs with shown_place_ids := ["p1"] }
    "他の候補を見る" alphaPlacesEnv (.ok "### 1. AlphaPark\nx") _ rfl

/-! ## C6 -/

/-- C6 counterexample: the claim says a collaborator exception in the
show-more branch is converted into one of the canned messages chosen by
searching the error text for the timeout, quota, network and authentication
markers, but the show-more except branch returns one fixed apology
independent of the error text, and that apology is not one of the five
classified messages (for the error text timeout the classification would
have produced the timeout variant). -/
theorem C6_counterexample :
    (handlePresentingPlan completePrefs "他の候補を見る" nullPlacesEnv
        (.error "timeout")).map (fun r => r.outcome) =
      .ok (.reply showMoreApology none none) ∧
    (handlePresentingPlan completePrefs "他の候補を見る" nullPlacesEnv
        (.error "quota exceeded")).map (fun r => r.outcome) =
      .ok (.reply showMoreApology none none) ∧
    planErrorMessages.contains showMoreApology = false ∧
    planErrorMessage "timeout" =
      "申し訳ございませんが、プランの作成中に問題が発生しました。処理に時間がかかりすぎています。もう一度お試しください。" :=
  ⟨rfl, rfl, rfl, rfl⟩

/-- C6 (amended): a generation-collaborator exception never surfaces raw
text and never disturbs already-committed session state — in the
GENERATING_PLAN branch the reply is one of the five canned messages chosen
by searching the lowercased error text for the timeout, quota, network and
authentication markers (a generic variant covers anything unmatched), the
session stays in GENERATING_PLAN and the preferences keep everything except
the activity-type default committed before the call; in the show-more
branch the reply is the single fixed apology, the state stays
PRESENTING_PLAN and the preferences are exactly unchanged. -/
theorem C6_generation_failure_messages :
    (∀ e : String, planErrorMessage e ∈ planErrorMessages) ∧
    (∀ (p : UserPreferences) (env : PlacesEnv) (e : String),
      p.location.address.isEmpty = false →
        handleGeneratingPlan p env (.error e) =
          .ok ⟨(if strTruthy p.activity_type then p
                else updatePrefsKwargs p [("activity_type", PrefValue.strVal "家族向け")]),
               .GENERATING_PLAN, .reply (planErrorMessage e) none none, true⟩ ∧
        (if strTruthy p.activity_type then p
         else updatePrefsKwargs p
          [("activity_type", PrefValue.strVal "家族向け")]).shown_place_ids =
            p.shown_place_ids ∧
        (if strTruthy p.activity_type then p
         else updatePrefsKwargs p
          [("activity_type", PrefValue.strVal "家族向け")]).spots_request_count =
            p.spots_request_count) ∧
    (∀ (p : UserPreferences) (msg : String) (env : PlacesEnv) (e : String),
      presentingPrereqsMissing p = false → isShowMoreRequest msg = true →
      p.spots_request_count < 2 →
        handlePresentingPlan p msg env (.error e) =
          .ok ⟨p, .PRESENTING_PLAN, .reply showMoreApology none none, true⟩) := by
  refine ⟨?_, ?_, ?_⟩
  · intro e
    unfold planErrorMessage planErrorSuffix
    simp only []
    split_ifs <;> decide
  · intro p env e haddr
    refine ⟨handleGeneratingPlan_error p env e haddr, ?_, ?_⟩ <;>
      by_cases hact : strTruthy p.activity_type = true <;>
        simp [hact, updatePrefs_activity_eq]
  · intro p msg env e hmiss htrig hlt
    exact handlePresentingPlan_genError p msg env e hmiss htrig hlt

/-- C6 witness: a concrete timeout failure in GENERATING_PLAN yields the
classified timeout message with the session state and counters intact. -/
theorem C6_witness :
    handleGeneratingPlan completePrefs nullPlacesEnv (.error "operation timed out") =
      .ok ⟨completePrefs, .GENERATING_PLAN,
           .reply (planErrorMessage "operation timed out") none none, true⟩ :=
  (C6_generation_failure_messages.2.1 completePrefs nullPlacesEnv
    "operation timed out" rfl).1

/-! ## C8 helper lemmas -/

theorem processFacilities_nil (env : PlacesEnv) (bias : Option (Rat × Rat))
    (descs : List (String × String)) : processFacilities env bias descs [] = [] := rfl

theorem processFacilities_cons (env : PlacesEnv) (bias : Option (Rat × Rat))
    (descs : List (String × String)) (a : String) (t : List String) :
    processFacilities env bias descs (a :: t) =
      if (strStrip a).isEmpty then processFacilities env bias descs t
      else
        match enrichOne env bias descs (strStrip a) with
        | some ep => ep :: processFacilities env bias descs t
        | none => processFacilities env bias descs t := rfl

/-! ## C8 -/

/-- C8: place enrichment is per-facility fault-isolated — a facility whose
stripped name is empty, whose text search finds no candidate or raises, or
whose detail lookup raises (all the cases enrichOne maps to none) is simply
omitted while every other facility of the batch is still processed in
order; the embedding is a total function, so a single facility can never
make the batch raise; the enriched list never exceeds the match list in
length; and a plan text with zero header matches yields the empty list. -/
theorem C8_enrichment_fault_isolated :
    (∀ (env : PlacesEnv) (bias : Option (Rat × Rat)) (descs : List (String × String))
        (pre post : List String) (f : String),
      ((strStrip f).isEmpty = true ∨ enrichOne env bias descs (strStrip f) = none) →
        processFacilities env bias descs (pre ++ f :: post) =
          processFacilities env bias descs pre ++ processFacilities env bias descs post) ∧
    (∀ (env : PlacesEnv) (bias : Option (Rat × Rat)) (descs : List (String × String))
        (names : List String),
      (processFacilities env bias descs names).length ≤ names.length) ∧
    (∀ (env : PlacesEnv) (text : String) (bias : Option (Rat × Rat)),
      headerCaptures text.toList = [] → extract_and_enrich_places env text bias = []) := by
  refine ⟨?_, ?_, ?_⟩
  · intro env bias descs pre post f hf
    induction pre with
    | nil =>
      simp only [List.nil_append, processFacilities_nil]
      rw [processFacilities_cons]
      cases hempty : (strStrip f).isEmpty with
      | true => simp [hempty]
      | false =>
        have henrich : enrichOne env bias descs (strStrip f) = none := by
          rcases hf with h | h
          · rw [hempty] at h
            exact absurd h (by simp)
          · exact h
        simp [hempty, henrich]
    | cons a t ih =>
      rw [List.cons_append, processFacilities_cons, processFacilities_cons]
      cases hA : (strStrip a).isEmpty with
      | true => simp [hA, ih]
      | false =>
        cases hE : enrichOne env bias descs (strStrip a) with
        | none => simp [hA, hE, ih]
        | some ep => simp [hA, hE, ih]
  · intro env bias descs names
    induction names with
    | nil => simp [processFacilities_nil]
    | cons a t ih =>
      rw [processFacilities_cons]
      cases hA : (strStrip a).isEmpty with
      | true =>
        simp only [hA, if_true]
        exact Nat.le_succ_of_le ih
      | false =>
        cases hE : enrichOne env bias descs (strStrip a) with
        | none =>
          simp only [hA, Bool.false_eq_true, if_false, hE]
          exact Nat.le_succ_of_le ih
        | some ep =>
          simp only [hA, Bool.false_eq_true, if_false, hE, List.length_cons]
          exact Nat.succ_le_succ ih
  · intro env text bias h
    unfold extract_and_enrich_places
    rw [h]
    rfl

/-- C8 witness: with a collaborator that raises on the facility B, the batch
A, B, C drops only B and still equals processing A and C; a text without
headers enriches to the empty list. -/
theorem C8_witness :
    processFacilities mixedPlacesEnv none [] ["A", "B", "C"] =
      processFacilities mixedPlacesEnv none [] ["A"] ++
        processFacilities mixedPlacesEnv none [] ["C"] ∧
    extract_and_enrich_places mixedPlacesEnv "no headers in this text" none = [] :=
  ⟨C8_enrichment_fault_isolated.1 mixedPlacesEnv none [] ["A"] ["C"] "B" (Or.inr rfl),
   C8_enrichment_fault_isolated.2.2 mixedPlacesEnv "no headers in this text" none rfl⟩

end GMapApp
